import Mathlib

/-
Verification development for the NFL_Scraper repository (src/scraper.py,
src/main.py).  The scraping logic of `NflScraper` is shallowly embedded:
the selenium layer (web elements, waits, the custom dropdown conditions)
is abstracted into explicit inputs (token lists obtained from
`webelement.text.split()`, an outcome oracle for the dropdown selects),
and every pure computation of the source is translated directly.
Python exceptions are modelled with `Except`; `None` / `np.nan` / ints /
strings living in the same Python list are modelled with the `PyVal` sum.
-/

set_option autoImplicit false

namespace NflScraper

/-- Model of the Python values stored in a data row: `None`, `np.nan`,
an `int`, or a `str`. -/
inductive PyVal where
  | none
  | nan
  | int (n : Int)
  | str (s : String)
  deriving DecidableEq, Repr

/-- Python exceptions that the embedded code can raise:
`ValueError` (from `list.remove`, `int(...)` and the pandas row-length
check) and `IndexError` (from out-of-range `list[i]` / `list.pop(0)`). -/
inductive PyErr where
  | valueError
  | indexError
  deriving DecidableEq, Repr

/-- Accumulator loop for `pySplit`: `cur` holds the characters of the
token being built; whitespace ends the current token (if any), and a
pending token is emitted at the end of the input. -/
def splitWsAux : List Char → List Char → List String
  | cur, [] => if cur = [] then [] else [String.mk cur]
  | cur, c :: cs =>
    if c.isWhitespace then
      if cur = [] then splitWsAux [] cs else String.mk cur :: splitWsAux [] cs
    else
      splitWsAux (cur ++ [c]) cs

/-- Python `str.split()` with no argument: split on whitespace runs and
discard empty pieces. -/
def pySplit (s : String) : List String :=
  splitWsAux [] s.data

/-- Python `str.isnumeric()` restricted to the ASCII strings produced by
this scraper: nonempty and all digits. -/
def pyIsNumeric (s : String) : Bool :=
  !s.data.isEmpty && s.data.all Char.isDigit

/-- Python `s[0].isupper()` for the nonempty tokens produced by
`str.split()` (split never yields an empty token, so the `[]` case is
unreachable on the scraper's inputs). -/
def firstIsUpper (s : String) : Bool :=
  match s.data with
  | [] => false
  | c :: _ => c.isUpper

/-- Numeric value of a list of decimal digit characters. -/
def digitsVal (cs : List Char) : Nat :=
  cs.foldl (fun n c => n * 10 + (c.toNat - 48)) 0

/-- Python `int(s)` on a string: an optional sign followed by decimal
digits; anything else raises `ValueError`. -/
def pyIntOfString (s : String) : Except PyErr Int :=
  match s.data with
  | '-' :: rest =>
    if !rest.isEmpty && rest.all Char.isDigit then
      .ok (-(digitsVal rest : Int))
    else
      .error .valueError
  | cs =>
    if !cs.isEmpty && cs.all Char.isDigit then
      .ok (digitsVal cs)
    else
      .error .valueError

/-- Python `int(x)` on the values that can reach the win check of
`get_score_data`: an `int` is returned unchanged, a `str` is parsed as a
decimal integer (`ValueError` if it does not parse); anything else
(`np.nan`, `None`) raises. -/
def pyInt : PyVal → Except PyErr Int
  | .int n => .ok n
  | .str s => pyIntOfString s
  | _ => .error .valueError

/-- Python `" ".join(words)`. -/
def joinWords : List String → String
  | [] => ""
  | [w] => w
  | w :: ws => w ++ " " ++ joinWords ws

/-- Embedding of the nested helper `get_game_status_date`
(src/scraper.py lines 243-253), applied to the whitespace-split text of
the status/date element.  `sad_data.remove("-")` removes the first `"-"`
and raises `ValueError` when none is present; `List.erase` likewise
removes the first occurrence. -/
def get_game_status_date (sad_data : List String) : Except PyErr (List String) :=
  if 1 ≤ sad_data.count "CANCELLED" then
    .ok ["CANCELLED", "CANCELLED", "CANCELLED"]
  else if "-" ∈ sad_data then
    .ok (sad_data.erase "-")
  else
    .error .valueError

/-- The multi-word-merge while-loop of `get_score_data`
(src/scraper.py lines 286-297): `buf` is `multi_word_team_name`, the
result is `clean_scores_data`.  Note that the source never flushes the
buffer after the loop, so a pending buffer at the end is dropped. -/
def cleanLoop : List String → List String → List String
  | _, [] => []
  | buf, t :: ts =>
    if firstIsUpper t then
      cleanLoop (buf ++ [t]) ts
    else if buf.isEmpty then
      t :: cleanLoop [] ts
    else
      joinWords buf :: t :: cleanLoop [] ts

/-- `clean_scores_data` as computed from `scores_data` by the merge loop
(empty initial buffer). -/
def cleanScoresData (scores_data : List String) : List String :=
  cleanLoop [] scores_data

/-- The score-vs-record consumption while-loop of `get_score_data`
(src/scraper.py lines 319-327).  Arguments: remaining `away_team`,
remaining `home_team`, then the current `away_score`, `home_score`,
`away_record`, `home_record`.  Each iteration reads both heads, branches
only on `away_team[0].isnumeric()`, and pops one element from each side;
an exhausted home side with a nonempty away side is Python's
`IndexError`. -/
def scoreRecLoop : List String → List String → PyVal → PyVal → PyVal → PyVal →
    Except PyErr (PyVal × PyVal × PyVal × PyVal)
  | [], _, aS, hS, aR, hR => .ok (aS, hS, aR, hR)
  | _ :: _, [], _, _, _, _ => .error .indexError
  | a :: as1, b :: hs1, aS, hS, aR, hR =>
    if pyIsNumeric a then
      scoreRecLoop as1 hs1 (.str a) (.str b) aR hR
    else
      scoreRecLoop as1 hs1 aS hS (.str a) (.str b)

/-- The win check of `get_score_data` (src/scraper.py lines 330-335):
`(away_win, home_win)` from the two parsed scores; both stay 0 on a
tie. -/
def winFlags (ai hi : Int) : Int × Int :=
  if hi < ai then (1, 0)
  else if ai < hi then (0, 1)
  else (0, 0)

/-- Tail of `get_score_data` after the team names were extracted
(src/scraper.py lines 318-341): run the score/record consumption loop
on the remaining sides, then the win check, then build
`oganized_game_data`.  `aSeed`, `hSeed` and `ip` carry the seeding and
postseason values fixed earlier. -/
def get_score_data_finish (aname hname : String) (aSeed hSeed : PyVal) (ip : Int)
    (arest2 hrest2 : List String) : Except PyErr (List PyVal) :=
  match scoreRecLoop arest2 hrest2 (.int 0) (.int 0) .nan .nan with
  | .error e => .error e
  | .ok (aS, hS, aR, hR) =>
    match pyInt aS with
    | .error e => .error e
    | .ok ai =>
      match pyInt hS with
      | .error e => .error e
      | .ok hi =>
        .ok [PyVal.str aname, aR, aS, PyVal.int (winFlags ai hi).1,
             PyVal.str hname, hR, hS, PyVal.int (winFlags ai hi).2,
             aSeed, hSeed, PyVal.int ip]

/-- Middle of `get_score_data` on the symmetric halves
(src/scraper.py lines 299-316): postseason seeding detection on the
first away token, then team-name extraction from each side.
Out-of-range `list[0]` accesses of the source (empty away side at the
postseason check, exhausted side at the name extraction) are
`IndexError`. -/
def get_score_data_core : List String → List String → Except PyErr (List PyVal)
  | a0 :: arest, h0 :: hrest =>
    if pyIsNumeric a0 then
      match arest, hrest with
      | aname :: arest2, hname :: hrest2 =>
        get_score_data_finish aname hname (.str a0) (.str h0) 1 arest2 hrest2
      | _, _ => .error .indexError
    else
      get_score_data_finish a0 h0 .nan .nan 0 arest hrest
  | _, _ => .error .indexError

/-- Embedding of the nested helper `get_score_data`
(src/scraper.py lines 263-341), applied to the whitespace-split text of
the score element: clean the tokens with the multi-word merge, split
them evenly (`data_split = len // 2`) into the away and home halves,
and process the halves.  The returned list is `oganized_game_data`:
`[awayTeam, awayRecord, awayScore, awayWin, homeTeam, homeRecord,
homeScore, homeWin, awaySeeding, homeSeeding, isPostseason]`. -/
def get_score_data (scores_data : List String) : Except PyErr (List PyVal) :=
  get_score_data_core
    ((cleanScoresData scores_data).take ((cleanScoresData scores_data).length / 2))
    ((cleanScoresData scores_data).drop ((cleanScoresData scores_data).length / 2))

/-- `get_score_data` applied to a raw text, mirroring
`scores_webelement.text.split()` on line 266. -/
def get_score_data_text (s : String) : Except PyErr (List PyVal) :=
  get_score_data (pySplit s)

/-- C1: on the token sequence of the Chiefs/Patriots scenario, the token
classifier returns away team "Kansas City Chiefs" with record "11-2",
score 24 and the away win flag set, home team "New England Patriots"
with record "8-5", score 17 and the home win flag clear, null (`np.nan`)
seedings, and `isPostseason = 0`. -/
theorem c1_chiefs_patriots_scenario :
    pySplit "Kansas City Chiefs 11-2 24 New England Patriots 8-5 17" =
      ["Kansas", "City", "Chiefs", "11-2", "24",
       "New", "England", "Patriots", "8-5", "17"] ∧
    get_score_data
      ["Kansas", "City", "Chiefs", "11-2", "24",
       "New", "England", "Patriots", "8-5", "17"] =
    .ok [PyVal.str "Kansas City Chiefs", PyVal.str "11-2", PyVal.str "24", PyVal.int 1,
         PyVal.str "New England Patriots", PyVal.str "8-5", PyVal.str "17", PyVal.int 0,
         PyVal.nan, PyVal.nan, PyVal.int 0] :=
  ⟨rfl, rfl⟩

/-- One entry element of the week view (an element of
`scores_byes_webelements`, src/scraper.py line 225), reduced to the data
the per-entry loop reads from it.  `statusDateText` is the
whitespace-split text of the played-game status/date sub-element
(`game`/`div[1]`, lines 347-350), `Option.none` when that sub-structure
is missing (selenium raises `NoSuchElementException`); `scoreText`
likewise for the score sub-element (`div[2]/div`, line 355); `byeText`
for the bye sub-element (`.//button/div[1]`, line 369). -/
structure Entry where
  statusDateText : Option (List String)
  scoreText : Option (List String)
  byeText : Option (List String)
  deriving DecidableEq, Repr

/-- Python `s[1:len(s) - 1]` (src/scraper.py line 379): drop the first
and the last character. -/
def pyStripEnds (s : String) : String :=
  String.mk (s.data.drop 1).dropLast

/-- The 16-column row built by the bye branch of `get_game_week_data`
(src/scraper.py lines 371-381), after all the `insert` calls: columns
`[Season, Week, GameStatus, Day, Date, AwayTeam, AwayRecord, AwayScore,
AwayWin, HomeTeam, HomeRecord, HomeScore, HomeWin, AwaySeeding,
HomeSeeding, PostSeason?]`. -/
def byeRow (year week teamName strippedRecord : String) : List PyVal :=
  [PyVal.str year, PyVal.str week, PyVal.str "BYE", PyVal.none, PyVal.none,
   PyVal.str teamName, PyVal.str strippedRecord, PyVal.nan, PyVal.nan, PyVal.none,
   PyVal.nan, PyVal.nan, PyVal.nan, PyVal.nan, PyVal.nan, PyVal.int 0]

/-- Assembly of the bye row from the split bye text
(src/scraper.py lines 371-382): fewer than two bye tokens is Python's
`IndexError` from `bye_data[0]` / `bye_data[1]`, which the loop does
not catch. -/
def processByeTokens (year week : String) : List String → Except PyErr (Option (List PyVal))
  | t0 :: t1 :: _ => .ok (some (byeRow year week t0 (pyStripEnds t1)))
  | _ => .error .indexError

/-- The bye branch of the per-entry loop (src/scraper.py lines 366-385):
reached on `NoSuchElementException` from the played-game lookups.  A
missing bye sub-structure is skipped (`.ok Option.none`, the inner
`except NoSuchElementException: continue`). -/
def processByeBranch (year week : String) : Option (List String) →
    Except PyErr (Option (List PyVal))
  | Option.none => .ok Option.none
  | some byeTokens => processByeTokens year week byeTokens

/-- Game branch after the classifier ran (src/scraper.py lines 357-364):
a classifier exception propagates; otherwise the row
`[season, week] ++ statusDateTriple ++ classifierOutput` is formed
(`sad_data.extend(score_data)` and the two `insert(0, ...)` calls). -/
def processGameScore (year week : String) (sad : List String) :
    Except PyErr (List PyVal) → Except PyErr (Option (List PyVal))
  | .error err => .error err
  | .ok score =>
    .ok (some (PyVal.str year :: PyVal.str week :: (sad.map PyVal.str ++ score)))

/-- Game branch after the status/date parse succeeded: a missing score
sub-element (`NoSuchElementException` at line 355) routes to the bye
branch, otherwise the classifier runs on the score text. -/
def processGameTail (year week : String) (sad : List String) (bt : Option (List String)) :
    Option (List String) → Except PyErr (Option (List PyVal))
  | Option.none => processByeBranch year week bt
  | some scoreTokens => processGameScore year week sad (get_score_data scoreTokens)

/-- Game branch after the status/date element was found: a status/date
parse exception (`ValueError`) propagates uncaught. -/
def processGameStatus (year week : String) (bt st : Option (List String)) :
    Except PyErr (List String) → Except PyErr (Option (List PyVal))
  | .error err => .error err
  | .ok sad => processGameTail year week sad bt st

/-- One iteration of the per-entry loop of `get_game_week_data`
(src/scraper.py lines 344-385).  `.ok (some row)` appends a row,
`.ok Option.none` skips the entry, `.error` is an exception the loop
does not catch (only `NoSuchElementException` is caught, routing to the
bye branch). -/
def processEntry (year week : String) (e : Entry) : Except PyErr (Option (List PyVal)) :=
  match e.statusDateText with
  | Option.none => processByeBranch year week e.byeText
  | some sadTokens =>
    processGameStatus year week e.byeText e.scoreText (get_game_status_date sadTokens)

/-- Appending one produced row ahead of the rows of the remaining
entries, given the outcome for those remaining entries. -/
def appendRow (row : List PyVal) : Except PyErr (List (List PyVal)) →
    Except PyErr (List (List PyVal))
  | .error err => .error err
  | .ok rest => .ok (row :: rest)

/-- Combining one entry's outcome with the outcome of the remaining
entries: an uncaught exception of the current entry aborts the call;
a skipped entry contributes nothing; a produced row must have the 16
dataframe columns (`df_week_scores.loc[len(df)] = row` raises
`ValueError` on a length mismatch) and is prepended to the remaining
rows. -/
def processEntryStep : Except PyErr (Option (List PyVal)) →
    Except PyErr (List (List PyVal)) → Except PyErr (List (List PyVal))
  | .error err, _ => .error err
  | .ok Option.none, rest => rest
  | .ok (some row), rest =>
    if row.length = 16 then appendRow row rest else .error .valueError

/-- The row-collection loop of `get_game_week_data` over the retained
entry elements, in page order (src/scraper.py lines 344-387). -/
def get_game_week_data_rows (year week : String) : List Entry →
    Except PyErr (List (List PyVal))
  | [] => .ok []
  | e :: es =>
    processEntryStep (processEntry year week e) (get_game_week_data_rows year week es)

/-- The expected-entry-count selection of `get_game_week_data`
(src/scraper.py lines 202-211): `num_score_elements` as a function of
`chosen_week` alone. -/
def num_score_elements (chosen_week : String) : Nat :=
  if chosen_week ∈ (["Hall Of Fame", "Pro Bowl", "Super Bowl"] : List String) then 4
  else if chosen_week ∈ (["Conference Championships"] : List String) then 5
  else if chosen_week ∈ (["Divisional Playoffs"] : List String) then 7
  else if chosen_week ∈ (["Wild Card Weekend"] : List String) then 7
  else 19

/-- Outcome of one attempt of the try-block of `select_year_and_week`
(src/scraper.py lines 85-97): the two dropdown waits either both
succeed, raise `StaleElementReferenceException`, or raise
`NoSuchElementException`.  The selenium layer is abstracted into this
oracle outcome. -/
inductive SelAttempt where
  | success
  | stale
  | notFound
  deriving DecidableEq, Repr

/-- Result of `select_year_and_week`: the dropdowns were selected, the
retry budget was exhausted (the "Driver unable to find available
options" message), or the year/week is not an option (the "This
year/week is not an option" message). -/
inductive SelResult where
  | selected
  | exhausted
  | notAnOption
  deriving DecidableEq, Repr

/-- Embedding of `select_year_and_week` (src/scraper.py lines 78-97).
`env k` is the outcome of the try-block in the k-th invocation; `call`
indexes the current invocation.  Returns the result together with the
total number of invocations performed.  A stale outcome with
`max_attempts > 0` recurses with `max_attempts - 1`; with
`max_attempts = 0` it stops with `exhausted`; a not-found outcome
returns immediately in every case. -/
def select_year_and_week (env : Nat → SelAttempt) : Nat → Nat → SelResult × Nat
  | call, 0 =>
    match env call with
    | .success => (.selected, 1)
    | .notFound => (.notAnOption, 1)
    | .stale => (.exhausted, 1)
  | call, m + 1 =>
    match env call with
    | .success => (.selected, 1)
    | .notFound => (.notAnOption, 1)
    | .stale =>
      ((select_year_and_week env (call + 1) m).1,
       (select_year_and_week env (call + 1) m).2 + 1)

/-- `select_year_and_week` with the default budget `max_attempts=5`
from the source's parameter default. -/
def select_year_and_week_default (env : Nat → SelAttempt) (call : Nat) : SelResult × Nat :=
  select_year_and_week env call 5

/-- C4: on an entry with no played-game sub-structure and a bye
sub-structure whose text is "Buffalo Bills (10-2)", the assembler does
NOT produce team="Buffalo Bills" and record="10-2": the text splits
into three tokens, the code takes `bye_data[0]` as the team and strips
the first and last character of `bye_data[1]`, yielding team="Buffalo"
and record="ill" (the inside of "Bills").  This contradicts the code's
own comment `bye_data = bye.text.split() # ['Name', 'Record']`, which
holds only for one-word team names. -/
theorem c4_bye_multiword_name_mangled :
    processEntry "2019" "Week 6"
      { statusDateText := Option.none, scoreText := Option.none,
        byeText := some (pySplit "Buffalo Bills (10-2)") } =
    .ok (some [PyVal.str "2019", PyVal.str "Week 6", PyVal.str "BYE", PyVal.none, PyVal.none,
               PyVal.str "Buffalo", PyVal.str "ill", PyVal.nan, PyVal.nan, PyVal.none,
               PyVal.nan, PyVal.nan, PyVal.nan, PyVal.nan, PyVal.nan, PyVal.int 0]) :=
  rfl

/-- C5: for every token sequence, the status/date parser returns the
sentinel triple when "CANCELLED" occurs at least once; otherwise, when a
"-" token is present, it removes exactly the first "-" token and returns
the remaining tokens in their original order. -/
theorem c5_status_date_rules (tokens : List String) :
    (1 ≤ tokens.count "CANCELLED" →
      get_game_status_date tokens = .ok ["CANCELLED", "CANCELLED", "CANCELLED"]) ∧
    (tokens.count "CANCELLED" = 0 → "-" ∈ tokens →
      get_game_status_date tokens = .ok (tokens.erase "-") ∧
      ∃ l r, "-" ∉ l ∧ tokens = l ++ "-" :: r ∧ tokens.erase "-" = l ++ r) := by
  constructor
  · intro h
    simp only [get_game_status_date, if_pos h]
  · intro h0 hmem
    constructor
    · simp only [get_game_status_date]
      rw [if_neg (by rw [h0]; omega), if_pos hmem]
    · exact List.exists_erase_eq hmem

/-- Witness for C5 at concrete inputs. -/
theorem c5_status_date_rules_witness :
    get_game_status_date ["FINAL", "-", "Sun", "12/8"] = .ok ["FINAL", "Sun", "12/8"] ∧
    get_game_status_date ["CANCELLED", "game"] =
      .ok ["CANCELLED", "CANCELLED", "CANCELLED"] := by
  constructor
  · exact ((c5_status_date_rules ["FINAL", "-", "Sun", "12/8"]).2
      (by decide) (by decide)).1.trans rfl
  · exact (c5_status_date_rules ["CANCELLED", "game"]).1 (by decide)

/-- C7: when the try-block reports `NoSuchElementException` (the
requested season or week label is not in the option set),
`select_year_and_week` returns the not-an-option failure in a single
invocation, for every remaining-attempts budget: no retry happens and
the budget is not consumed. -/
theorem c7_not_found_immediate (env : Nat → SelAttempt) (call ma : Nat)
    (h : env call = SelAttempt.notFound) :
    select_year_and_week env call ma = (SelResult.notAnOption, 1) := by
  cases ma <;> simp [select_year_and_week, h]

/-- Witness for C7 at a concrete oracle and budget. -/
theorem c7_not_found_immediate_witness :
    select_year_and_week (fun _ => SelAttempt.notFound) 0 5 = (SelResult.notAnOption, 1) :=
  c7_not_found_immediate (fun _ => SelAttempt.notFound) 0 5 rfl

/-- C8: the expected-entry-count selection is a pure lookup on the week
label: Hall Of Fame / Pro Bowl / Super Bowl map to 4, Conference
Championships to 5, Divisional Playoffs and Wild Card Weekend to 7, and
every other week label to the regular-week count 19. -/
theorem c8_expected_entry_counts :
    num_score_elements "Hall Of Fame" = 4 ∧
    num_score_elements "Pro Bowl" = 4 ∧
    num_score_elements "Super Bowl" = 4 ∧
    num_score_elements "Conference Championships" = 5 ∧
    num_score_elements "Divisional Playoffs" = 7 ∧
    num_score_elements "Wild Card Weekend" = 7 ∧
    ∀ w : String,
      w ∉ (["Hall Of Fame", "Pro Bowl", "Super Bowl", "Conference Championships",
            "Divisional Playoffs", "Wild Card Weekend"] : List String) →
      num_score_elements w = 19 := by
  refine ⟨rfl, rfl, rfl, rfl, rfl, rfl, ?_⟩
  intro w hw
  simp only [List.mem_cons, List.not_mem_nil, not_or, or_false] at hw
  obtain ⟨h1, h2, h3, h4, h5, h6⟩ := hw
  simp [num_score_elements, h1, h2, h3, h4, h5, h6]

/-- Witness for C8 at a concrete regular-week label. -/
theorem c8_expected_entry_counts_witness : num_score_elements "Week 1" = 19 :=
  c8_expected_entry_counts.2.2.2.2.2.2 "Week 1" (by decide)

/-- The invocation count of `select_year_and_week` is at most one more
than the remaining-attempts budget. -/
theorem select_year_and_week_count_le (env : Nat → SelAttempt) :
    ∀ ma call : Nat, (select_year_and_week env call ma).2 ≤ ma + 1 := by
  intro ma
  induction ma with
  | zero =>
    intro call
    cases h : env call <;> simp [select_year_and_week, h]
  | succ m ih =>
    intro call
    cases h : env call <;> simp [select_year_and_week, h]
    have := ih (call + 1)
    omega

/-- C6: on a transient staleness outcome, `select_year_and_week` with a
positive budget re-invokes itself with the budget decremented by one
and nothing else changed; with budget 0 it stops after that single
invocation and reports exhaustion; the recursion performs at most
budget + 1 invocations; and the default budget is 5. -/
theorem c6_bounded_retry_recursion (env : Nat → SelAttempt) (call m : Nat) :
    (env call = SelAttempt.stale →
      select_year_and_week env call (m + 1) =
        ((select_year_and_week env (call + 1) m).1,
         (select_year_and_week env (call + 1) m).2 + 1)) ∧
    (env call = SelAttempt.stale →
      select_year_and_week env call 0 = (SelResult.exhausted, 1)) ∧
    (∀ ma, (select_year_and_week env call ma).2 ≤ ma + 1) ∧
    select_year_and_week_default env call = select_year_and_week env call 5 := by
  refine ⟨?_, ?_, ?_, rfl⟩
  · intro h
    simp [select_year_and_week, h]
  · intro h
    simp [select_year_and_week, h]
  · intro ma
    exact select_year_and_week_count_le env ma call

/-- Witness for C6 at the always-stale oracle. -/
theorem c6_bounded_retry_recursion_witness :
    select_year_and_week (fun _ => SelAttempt.stale) 0 1 = (SelResult.exhausted, 2) ∧
    select_year_and_week (fun _ => SelAttempt.stale) 0 0 = (SelResult.exhausted, 1) ∧
    (select_year_and_week (fun _ => SelAttempt.stale) 0 5).2 ≤ 6 := by
  refine ⟨?_, ?_, ?_⟩
  · rw [(c6_bounded_retry_recursion (fun _ => SelAttempt.stale) 0 0).1 rfl]
    rfl
  · exact (c6_bounded_retry_recursion (fun _ => SelAttempt.stale) 0 0).2.1 rfl
  · exact (c6_bounded_retry_recursion (fun _ => SelAttempt.stale) 0 0).2.2.1 5

/-- The merge loop returns the empty list on any all-uppercase-initial
input: every token goes into the buffer, which is never flushed. -/
theorem cleanLoop_all_upper (us : List String)
    (h : ∀ u ∈ us, firstIsUpper u = true) :
    ∀ buf : List String, cleanLoop buf us = [] := by
  induction us with
  | nil =>
    intro buf
    rfl
  | cons u us ih =>
    intro buf
    have hu : firstIsUpper u = true := h u (by simp)
    simp only [cleanLoop, hu, if_pos]
    exact ih (fun x hx => h x (by simp [hx])) (buf ++ [u])

/-- Appending an all-uppercase-initial suffix does not change the
output of the merge loop: the suffix only grows the pending buffer,
which is dropped when the input runs out. -/
theorem cleanLoop_append_upper (us : List String)
    (h : ∀ u ∈ us, firstIsUpper u = true) :
    ∀ (ts buf : List String), cleanLoop buf (ts ++ us) = cleanLoop buf ts := by
  intro ts
  induction ts with
  | nil =>
    intro buf
    rw [List.nil_append, cleanLoop_all_upper us h buf]
    rfl
  | cons t ts ih =>
    intro buf
    by_cases ht : firstIsUpper t = true
    · simp only [List.cons_append, cleanLoop, ht, if_pos]
      exact ih (buf ++ [t])
    · simp only [List.cons_append, cleanLoop, ht]
      by_cases hb : buf.isEmpty <;> simp [hb, ih []]

/-- C9: the multi-word merge phase flushes the pending name buffer only
at a non-uppercase-initial token, so a raw token sequence ending in one
or more uppercase-initial tokens loses exactly those trailing tokens:
the cleaned sequence equals that of the sequence without them, and an
all-uppercase-initial sequence cleans to the empty list. -/
theorem c9_trailing_uppercase_tokens_dropped (ts us : List String)
    (_hne : us ≠ []) (h : ∀ u ∈ us, firstIsUpper u = true) :
    cleanScoresData (ts ++ us) = cleanScoresData ts ∧ cleanScoresData us = [] :=
  ⟨cleanLoop_append_upper us h ts [], cleanLoop_all_upper us h []⟩

/-- Witness for C9 at a concrete sequence ending in the two
uppercase-initial tokens of a team name. -/
theorem c9_trailing_uppercase_tokens_dropped_witness :
    cleanScoresData ["17", "Green", "Bay"] = cleanScoresData ["17"] ∧
    cleanScoresData ["Green", "Bay"] = [] :=
  c9_trailing_uppercase_tokens_dropped ["17"] ["Green", "Bay"] (by decide) (by decide)

/-- C10: on pairwise-consumed token pairs, the score/record loop
classifies each pair solely by whether its away-side token is purely
numeric — a numeric away token assigns the pair to the scores, any
other away token assigns the pair to the records, regardless of the
home-side token — and each assignment overwrites the previous one, so
the final scores/records come from the last pair of each kind. -/
theorem c10_pair_classification_by_away_token (ps : List (String × String))
    (aS hS aR hR : PyVal) :
    scoreRecLoop (ps.map Prod.fst) (ps.map Prod.snd) aS hS aR hR =
      .ok (((ps.foldl (fun acc p =>
              if pyIsNumeric p.1 then (PyVal.str p.1, PyVal.str p.2) else acc) (aS, hS)).1,
            (ps.foldl (fun acc p =>
              if pyIsNumeric p.1 then (PyVal.str p.1, PyVal.str p.2) else acc) (aS, hS)).2,
            (ps.foldl (fun acc p =>
              if pyIsNumeric p.1 then acc else (PyVal.str p.1, PyVal.str p.2)) (aR, hR)).1,
            (ps.foldl (fun acc p =>
              if pyIsNumeric p.1 then acc else (PyVal.str p.1, PyVal.str p.2)) (aR, hR)).2)) := by
  induction ps generalizing aS hS aR hR with
  | nil => rfl
  | cons p ps ih =>
    obtain ⟨a, b⟩ := p
    cases hnum : pyIsNumeric a with
    | true =>
      simp only [List.map_cons, List.foldl_cons, scoreRecLoop, hnum, if_true]
      exact ih (PyVal.str a) (PyVal.str b) aR hR
    | false =>
      simp only [List.map_cons, List.foldl_cons, scoreRecLoop, hnum, Bool.false_eq_true,
        if_false]
      exact ih aS hS (PyVal.str a) (PyVal.str b)

/-- Counterexample to C2: with a malformed first entry (status/date
tokens without a "-" separator) followed by a well-formed entry, the
whole extraction call aborts with the uncaught `ValueError` from
`sad_data.remove("-")` — the per-entry handler catches only
`NoSuchElementException` — although the same well-formed entry alone
yields a row.  So the malformed entry is fatal and the remaining
entries of the week are not extracted. -/
theorem c2_missing_separator_counterexample :
    get_game_week_data_rows "2019" "Week 1"
      [{ statusDateText := some ["FINAL", "Sun", "12/8"],
         scoreText := some ["Lions", "8-5", "24", "Bears", "6-7", "20"],
         byeText := Option.none },
       { statusDateText := some ["FINAL", "-", "Sun", "12/8"],
         scoreText := some ["Lions", "8-5", "24", "Bears", "6-7", "20"],
         byeText := Option.none }] = .error PyErr.valueError ∧
    get_game_week_data_rows "2019" "Week 1"
      [{ statusDateText := some ["FINAL", "-", "Sun", "12/8"],
         scoreText := some ["Lions", "8-5", "24", "Bears", "6-7", "20"],
         byeText := Option.none }] =
      .ok [[PyVal.str "2019", PyVal.str "Week 1", PyVal.str "FINAL", PyVal.str "Sun",
            PyVal.str "12/8", PyVal.str "Lions", PyVal.str "8-5", PyVal.str "24",
            PyVal.int 1, PyVal.str "Bears", PyVal.str "6-7", PyVal.str "20", PyVal.int 0,
            PyVal.nan, PyVal.nan, PyVal.int 0]] :=
  ⟨rfl, rfl⟩

/-- C2 amended: an entry whose status/date token sequence contains no
"-" separator (and no "CANCELLED" marker) raises a `ValueError` that
the per-entry processing does not catch, so the whole
`get_game_week_data` extraction call fails at that entry, whatever
entries follow. -/
theorem c2_missing_separator_is_fatal (year week : String) (sad : List String)
    (st bt : Option (List String)) (es : List Entry)
    (h1 : sad.count "CANCELLED" = 0) (h2 : "-" ∉ sad) :
    get_game_week_data_rows year week
      ({ statusDateText := some sad, scoreText := st, byeText := bt } :: es) =
      .error PyErr.valueError := by
  have hsd : get_game_status_date sad = .error PyErr.valueError := by
    simp only [get_game_status_date]
    rw [if_neg (by rw [h1]; omega), if_neg h2]
  simp [get_game_week_data_rows, processEntry, hsd, processGameStatus, processEntryStep]

/-- Witness for C2 amended at a concrete malformed entry. -/
theorem c2_missing_separator_is_fatal_witness :
    get_game_week_data_rows "2019" "Week 2"
      [{ statusDateText := some ["FINAL", "Sun", "9/15"],
         scoreText := some ["Jets", "0-2", "10", "Bills", "2-0", "17"],
         byeText := Option.none }] = .error PyErr.valueError :=
  c2_missing_separator_is_fatal "2019" "Week 2" ["FINAL", "Sun", "9/15"]
    (some ["Jets", "0-2", "10", "Bills", "2-0", "17"]) Option.none []
    (by decide) (by decide)

/-- The win pair produced by the win check is (1,0), (0,1) or (0,0). -/
theorem winFlags_cases (ai hi : Int) :
    ((winFlags ai hi).1 = 1 ∧ (winFlags ai hi).2 = 0) ∨
    ((winFlags ai hi).1 = 0 ∧ (winFlags ai hi).2 = 1) ∨
    ((winFlags ai hi).1 = 0 ∧ (winFlags ai hi).2 = 0) := by
  unfold winFlags
  split
  · exact Or.inl ⟨rfl, rfl⟩
  split
  · exact Or.inr (Or.inl ⟨rfl, rfl⟩)
  · exact Or.inr (Or.inr ⟨rfl, rfl⟩)

/-- Shape of a successful `get_score_data_finish` result: the
11-element `oganized_game_data` list with win flags from the win
check. -/
theorem get_score_data_finish_ok_shape (aname hname : String) (aSeed hSeed : PyVal)
    (ip : Int) (arest2 hrest2 : List String) (out : List PyVal)
    (h : get_score_data_finish aname hname aSeed hSeed ip arest2 hrest2 = .ok out) :
    ∃ (aR aS hR hS : PyVal) (aw hw : Int),
      out = [PyVal.str aname, aR, aS, PyVal.int aw, PyVal.str hname, hR, hS, PyVal.int hw,
             aSeed, hSeed, PyVal.int ip] ∧
      ((aw = 1 ∧ hw = 0) ∨ (aw = 0 ∧ hw = 1) ∨ (aw = 0 ∧ hw = 0)) := by
  unfold get_score_data_finish at h
  split at h
  · exact absurd h (by simp)
  · split at h
    · exact absurd h (by simp)
    · split at h
      · exact absurd h (by simp)
      · rw [Except.ok.injEq] at h
        subst h
        exact ⟨_, _, _, _, _, _, rfl, winFlags_cases _ _⟩

/-- Shape of a successful `get_score_data_core` result. -/
theorem get_score_data_core_ok_shape (away home : List String) (out : List PyVal)
    (h : get_score_data_core away home = .ok out) :
    ∃ (aname hname : String) (aR aS hR hS aSeed hSeed : PyVal) (aw hw ip : Int),
      out = [PyVal.str aname, aR, aS, PyVal.int aw, PyVal.str hname, hR, hS, PyVal.int hw,
             aSeed, hSeed, PyVal.int ip] ∧
      ((aw = 1 ∧ hw = 0) ∨ (aw = 0 ∧ hw = 1) ∨ (aw = 0 ∧ hw = 0)) := by
  unfold get_score_data_core at h
  repeat' first
    | split at h
    | exact Except.noConfusion h
    | (obtain ⟨aR, aS2, hR, hS2, aw, hw, hout, hflags⟩ :=
         get_score_data_finish_ok_shape _ _ _ _ _ _ _ _ h
       exact ⟨_, _, aR, aS2, hR, hS2, _, _, aw, hw, _, hout, hflags⟩)

/-- Shape of a successful token-classifier result: an 11-element row
with the team names at positions 0 and 4, integer win flags at
positions 3 and 7 forming one of the pairs (1,0), (0,1), (0,0), and an
integer postseason flag at position 10. -/
theorem get_score_data_ok_shape (ts : List String) (out : List PyVal)
    (h : get_score_data ts = .ok out) :
    ∃ (aname hname : String) (aR aS hR hS aSeed hSeed : PyVal) (aw hw ip : Int),
      out = [PyVal.str aname, aR, aS, PyVal.int aw, PyVal.str hname, hR, hS, PyVal.int hw,
             aSeed, hSeed, PyVal.int ip] ∧
      ((aw = 1 ∧ hw = 0) ∨ (aw = 0 ∧ hw = 1) ∨ (aw = 0 ∧ hw = 0)) := by
  rw [get_score_data] at h
  exact get_score_data_core_ok_shape _ _ out h

/-- Inversion for the bye branch: a produced row comes from a bye text
of at least two tokens and is the bye row built from the first two. -/
theorem processByeBranch_ok_some (year week : String) (bt : Option (List String))
    (row : List PyVal) (h : processByeBranch year week bt = .ok (some row)) :
    ∃ t0 t1 rest, bt = some (t0 :: t1 :: rest) ∧
      row = byeRow year week t0 (pyStripEnds t1) := by
  cases bt with
  | none => simp [processByeBranch] at h
  | some l =>
    cases l with
    | nil => simp [processByeBranch, processByeTokens] at h
    | cons t0 l2 =>
      cases l2 with
      | nil => simp [processByeBranch, processByeTokens] at h
      | cons t1 rest =>
        simp only [processByeBranch, processByeTokens, Except.ok.injEq,
          Option.some.injEq] at h
        exact ⟨t0, t1, rest, rfl, h.symm⟩

/-- Inversion for one entry: a produced row is either a bye row or a
game row assembled from a parsed status/date list and a classifier
output. -/
theorem processEntry_ok_some (year week : String) (e : Entry) (row : List PyVal)
    (h : processEntry year week e = .ok (some row)) :
    (∃ t0 t1 rest, e.byeText = some (t0 :: t1 :: rest) ∧
       row = byeRow year week t0 (pyStripEnds t1)) ∨
    (∃ sadTokens sad scoreTokens out,
       e.statusDateText = some sadTokens ∧ get_game_status_date sadTokens = .ok sad ∧
       e.scoreText = some scoreTokens ∧ get_score_data scoreTokens = .ok out ∧
       row = PyVal.str year :: PyVal.str week :: (sad.map PyVal.str ++ out)) := by
  obtain ⟨sdt, st, bt⟩ := e
  cases sdt with
  | none => exact Or.inl (processByeBranch_ok_some year week bt row h)
  | some sadTokens =>
    have h2 : processGameStatus year week bt st (get_game_status_date sadTokens) =
        .ok (some row) := h
    cases hsd : get_game_status_date sadTokens with
    | error err =>
      rw [hsd] at h2
      simp [processGameStatus] at h2
    | ok sad =>
      rw [hsd] at h2
      cases st with
      | none =>
        have h3 : processByeBranch year week bt = .ok (some row) := h2
        exact Or.inl (processByeBranch_ok_some year week bt row h3)
      | some scoreTokens =>
        have h3 : processGameScore year week sad (get_score_data scoreTokens) =
            .ok (some row) := h2
        cases hsc : get_score_data scoreTokens with
        | error err =>
          rw [hsc] at h3
          simp [processGameScore] at h3
        | ok out =>
          rw [hsc] at h3
          simp only [processGameScore, Except.ok.injEq, Option.some.injEq] at h3
          exact Or.inr ⟨sadTokens, sad, scoreTokens, out, rfl, hsd, rfl, hsc, h3.symm⟩

/-- Every row of a successful extraction comes from some entry of the
week and passed the 16-column check of the dataframe row assignment. -/
theorem get_game_week_data_rows_mem (year week : String) :
    ∀ (es : List Entry) (rows : List (List PyVal)),
      get_game_week_data_rows year week es = .ok rows →
      ∀ row ∈ rows,
        ∃ e ∈ es, processEntry year week e = .ok (some row) ∧ row.length = 16 := by
  intro es
  induction es with
  | nil =>
    intro rows h row hrow
    simp only [get_game_week_data_rows, Except.ok.injEq] at h
    subst h
    simp at hrow
  | cons e es ih =>
    intro rows h row hrow
    simp only [get_game_week_data_rows] at h
    cases hpe : processEntry year week e with
    | error err =>
      rw [hpe] at h
      simp [processEntryStep] at h
    | ok r =>
      rw [hpe] at h
      cases r with
      | none =>
        simp only [processEntryStep] at h
        obtain ⟨e2, he2, hpe2, hlen⟩ := ih rows h row hrow
        exact ⟨e2, List.mem_cons_of_mem e he2, hpe2, hlen⟩
      | some row2 =>
        simp only [processEntryStep] at h
        by_cases hl : row2.length = 16
        · rw [if_pos hl] at h
          cases hrest : get_game_week_data_rows year week es with
          | error err =>
            rw [hrest] at h
            simp [appendRow] at h
          | ok rest =>
            rw [hrest] at h
            simp only [appendRow, Except.ok.injEq] at h
            subst h
            rcases List.mem_cons.mp hrow with hrow | hrow
            · subst hrow
              exact ⟨e, List.mem_cons_self e es, hpe, hl⟩
            · obtain ⟨e2, he2, hpe2, hlen⟩ := ih rest hrest row hrow
              exact ⟨e2, List.mem_cons_of_mem e he2, hpe2, hlen⟩
        · rw [if_neg hl] at h
          simp at h

/-- Counterexample to C3 at a concrete two-entry week: the first entry
is a finished tie game (both parsed scores 17), whose produced row has
status "FINAL" (not CANCELLED) and yet neither win flag equal to 1 —
refuting "exactly one of awayWin/homeWin equals 1 unless status =
CANCELLED"; the second entry is a cancelled game, whose produced row
nevertheless carries the away team name "Lions" in its AwayTeam field —
refuting "when status = CANCELLED every field other than
season/week/status is null or the sentinel" (the assembler runs the
token classifier on cancelled entries too). -/
theorem c3_counterexample :
    get_game_week_data_rows "2019" "Week 12"
      [{ statusDateText := some ["FINAL", "-", "Sun", "12/8"],
         scoreText := some ["Lions", "8-5", "17", "Bears", "6-7", "17"],
         byeText := Option.none },
       { statusDateText := some ["CANCELLED"],
         scoreText := some ["Lions", "8-5", "Bears", "6-7"],
         byeText := Option.none }] =
      .ok [[PyVal.str "2019", PyVal.str "Week 12", PyVal.str "FINAL", PyVal.str "Sun",
            PyVal.str "12/8", PyVal.str "Lions", PyVal.str "8-5", PyVal.str "17",
            PyVal.int 0, PyVal.str "Bears", PyVal.str "6-7", PyVal.str "17", PyVal.int 0,
            PyVal.nan, PyVal.nan, PyVal.int 0],
           [PyVal.str "2019", PyVal.str "Week 12", PyVal.str "CANCELLED",
            PyVal.str "CANCELLED", PyVal.str "CANCELLED", PyVal.str "Lions",
            PyVal.str "8-5", PyVal.int 0, PyVal.int 0, PyVal.str "Bears", PyVal.str "6-7",
            PyVal.int 0, PyVal.int 0, PyVal.nan, PyVal.nan, PyVal.int 0]] ∧
    ¬ ([PyVal.str "2019", PyVal.str "Week 12", PyVal.str "FINAL", PyVal.str "Sun",
        PyVal.str "12/8", PyVal.str "Lions", PyVal.str "8-5", PyVal.str "17",
        PyVal.int 0, PyVal.str "Bears", PyVal.str "6-7", PyVal.str "17", PyVal.int 0,
        PyVal.nan, PyVal.nan, PyVal.int 0][8]? = some (PyVal.int 1) ∨
       [PyVal.str "2019", PyVal.str "Week 12", PyVal.str "FINAL", PyVal.str "Sun",
        PyVal.str "12/8", PyVal.str "Lions", PyVal.str "8-5", PyVal.str "17",
        PyVal.int 0, PyVal.str "Bears", PyVal.str "6-7", PyVal.str "17", PyVal.int 0,
        PyVal.nan, PyVal.nan, PyVal.int 0][12]? = some (PyVal.int 1)) ∧
    ¬ ([PyVal.str "2019", PyVal.str "Week 12", PyVal.str "CANCELLED",
        PyVal.str "CANCELLED", PyVal.str "CANCELLED", PyVal.str "Lions",
        PyVal.str "8-5", PyVal.int 0, PyVal.int 0, PyVal.str "Bears", PyVal.str "6-7",
        PyVal.int 0, PyVal.int 0, PyVal.nan, PyVal.nan, PyVal.int 0][5]? = some PyVal.none ∨
       [PyVal.str "2019", PyVal.str "Week 12", PyVal.str "CANCELLED",
        PyVal.str "CANCELLED", PyVal.str "CANCELLED", PyVal.str "Lions",
        PyVal.str "8-5", PyVal.int 0, PyVal.int 0, PyVal.str "Bears", PyVal.str "6-7",
        PyVal.int 0, PyVal.int 0, PyVal.nan, PyVal.nan, PyVal.int 0][5]? = some PyVal.nan ∨
       [PyVal.str "2019", PyVal.str "Week 12", PyVal.str "CANCELLED",
        PyVal.str "CANCELLED", PyVal.str "CANCELLED", PyVal.str "Lions",
        PyVal.str "8-5", PyVal.int 0, PyVal.int 0, PyVal.str "Bears", PyVal.str "6-7",
        PyVal.int 0, PyVal.int 0, PyVal.nan, PyVal.nan, PyVal.int 0][5]? =
         some (PyVal.str "CANCELLED")) :=
  ⟨rfl, by decide, by decide⟩

/-- C3 amended: in every row that `get_game_week_data` produces for a
game entry (status not "BYE"), the win flags are integers forming one
of the pairs (1,0), (0,1) or (0,0) — never both 1, and both 0 exactly
on equal parsed scores (ties and the 0-0 default included), regardless
of cancellation; and a row whose status is the CANCELLED sentinel still
has its trailing 11 fields populated by the token classifier rather
than being null. -/
theorem c3_win_flag_and_cancelled_rows (year week : String) (es : List Entry)
    (rows : List (List PyVal)) (h : get_game_week_data_rows year week es = .ok rows) :
    ∀ row ∈ rows,
      (row[2]? ≠ some (PyVal.str "BYE") →
        ∃ aw hw : Int, row[8]? = some (PyVal.int aw) ∧ row[12]? = some (PyVal.int hw) ∧
          ((aw = 1 ∧ hw = 0) ∨ (aw = 0 ∧ hw = 1) ∨ (aw = 0 ∧ hw = 0))) ∧
      (row[2]? = some (PyVal.str "CANCELLED") →
        ∃ ts out, get_score_data ts = Except.ok out ∧ row.drop 5 = out) := by
  intro row hrow
  obtain ⟨e, _, hpe, hlen⟩ := get_game_week_data_rows_mem year week es rows h row hrow
  rcases processEntry_ok_some year week e row hpe with ⟨t0, t1, rest, _, hbye⟩ |
    ⟨sadTokens, sad, scoreTokens, out, _, hsad, _, hsc, hgame⟩
  · subst hbye
    constructor
    · intro hne
      exact absurd rfl hne
    · intro hc
      have hb : (byeRow year week t0 (pyStripEnds t1))[2]? = some (PyVal.str "BYE") := rfl
      rw [hb] at hc
      exact absurd hc (by decide)
  · obtain ⟨aname, hname, aR, aS, hR, hS, aSeed, hSeed, aw, hw, ip, hout, hflags⟩ :=
      get_score_data_ok_shape scoreTokens out hsc
    subst hgame
    subst hout
    have hsadlen : sad.length = 3 := by
      simp only [List.length_cons, List.length_append, List.length_map,
        List.length_nil] at hlen
      omega
    obtain ⟨s0, s1, s2, rfl⟩ := List.length_eq_three.mp hsadlen
    constructor
    · intro _
      exact ⟨aw, hw, by simp, by simp, hflags⟩
    · intro _
      exact ⟨scoreTokens, _, hsc, by simp⟩

/-- Witness for C3 amended at a concrete one-entry week. -/
theorem c3_win_flag_and_cancelled_rows_witness :
    ([PyVal.str "2019", PyVal.str "Week 1", PyVal.str "FINAL", PyVal.str "Sun",
      PyVal.str "12/8", PyVal.str "Lions", PyVal.str "8-5", PyVal.str "24", PyVal.int 1,
      PyVal.str "Bears", PyVal.str "6-7", PyVal.str "20", PyVal.int 0,
      PyVal.nan, PyVal.nan, PyVal.int 0][2]? ≠ some (PyVal.str "BYE") →
      ∃ aw hw : Int,
        [PyVal.str "2019", PyVal.str "Week 1", PyVal.str "FINAL", PyVal.str "Sun",
         PyVal.str "12/8", PyVal.str "Lions", PyVal.str "8-5", PyVal.str "24", PyVal.int 1,
         PyVal.str "Bears", PyVal.str "6-7", PyVal.str "20", PyVal.int 0,
         PyVal.nan, PyVal.nan, PyVal.int 0][8]? = some (PyVal.int aw) ∧
        [PyVal.str "2019", PyVal.str "Week 1", PyVal.str "FINAL", PyVal.str "Sun",
         PyVal.str "12/8", PyVal.str "Lions", PyVal.str "8-5", PyVal.str "24", PyVal.int 1,
         PyVal.str "Bears", PyVal.str "6-7", PyVal.str "20", PyVal.int 0,
         PyVal.nan, PyVal.nan, PyVal.int 0][12]? = some (PyVal.int hw) ∧
        ((aw = 1 ∧ hw = 0) ∨ (aw = 0 ∧ hw = 1) ∨ (aw = 0 ∧ hw = 0))) ∧
    ([PyVal.str "2019", PyVal.str "Week 1", PyVal.str "FINAL", PyVal.str "Sun",
      PyVal.str "12/8", PyVal.str "Lions", PyVal.str "8-5", PyVal.str "24", PyVal.int 1,
      PyVal.str "Bears", PyVal.str "6-7", PyVal.str "20", PyVal.int 0,
      PyVal.nan, PyVal.nan, PyVal.int 0][2]? = some (PyVal.str "CANCELLED") →
      ∃ ts out, get_score_data ts = Except.ok out ∧
        List.drop 5
          [PyVal.str "2019", PyVal.str "Week 1", PyVal.str "FINAL", PyVal.str "Sun",
           PyVal.str "12/8", PyVal.str "Lions", PyVal.str "8-5", PyVal.str "24", PyVal.int 1,
           PyVal.str "Bears", PyVal.str "6-7", PyVal.str "20", PyVal.int 0,
           PyVal.nan, PyVal.nan, PyVal.int 0] = out) :=
  c3_win_flag_and_cancelled_rows "2019" "Week 1"
    [{ statusDateText := some ["FINAL", "-", "Sun", "12/8"],
       scoreText := some ["Lions", "8-5", "24", "Bears", "6-7", "20"],
       byeText := Option.none }]
    [[PyVal.str "2019", PyVal.str "Week 1", PyVal.str "FINAL", PyVal.str "Sun",
      PyVal.str "12/8", PyVal.str "Lions", PyVal.str "8-5", PyVal.str "24", PyVal.int 1,
      PyVal.str "Bears", PyVal.str "6-7", PyVal.str "20", PyVal.int 0,
      PyVal.nan, PyVal.nan, PyVal.int 0]] rfl
    [PyVal.str "2019", PyVal.str "Week 1", PyVal.str "FINAL", PyVal.str "Sun",
     PyVal.str "12/8", PyVal.str "Lions", PyVal.str "8-5", PyVal.str "24", PyVal.int 1,
     PyVal.str "Bears", PyVal.str "6-7", PyVal.str "20", PyVal.int 0,
     PyVal.nan, PyVal.nan, PyVal.int 0] (by decide)

end NflScraper
